import Mathlib

/-!
Verification of the sidecar process supervisor of the kika desktop shell
(src/frontend/src-tauri/src/main.rs), as a shallow embedding in Lean.

The state the supervisor manages is `BackendProcesses`: a mutex-guarded
`Option<CommandChild>` for the core service.  The mutex is modelled by a
`poisoned` flag (a poisoned `Mutex::lock` returns `Err`); the child handle is
modelled by a `Nat` process id.  Effects of an operation (which processes were
spawned, which were signalled via `kill`) are returned explicitly as lists so
that theorems can talk about them.  External nondeterminism — the result of
`Command::new_sidecar(..).spawn()` and the outcome of an HTTP GET — is passed
in as explicit parameters (`LaunchOutcome`, `ProbeOutcome`).
-/

namespace Kika

/-- Outcome of the single HTTP GET a health probe performs: either a response
carrying a status code, or a transport-level failure (connection refused,
timeout, DNS failure, ...). -/
inductive ProbeOutcome where
  | response (status : Nat)
  | failure (msg : String)
deriving DecidableEq

/-- Success test `reqwest::StatusCode::is_success`: status in 200..=299. -/
def isSuccessStatus (status : Nat) : Bool :=
  200 ≤ status && status < 300

/-- The two environment override variables read by the shell. -/
structure Env where
  kikaCoreUrl : Option String
  kikaAuthUrl : Option String

/-- Rust `get_core_backend_url`: read `KIKA_CORE_URL` with a local fallback. -/
def get_core_backend_url (env : Env) : String :=
  env.kikaCoreUrl.getD ("http://127.0.0.1:8001")

/-- Rust `get_auth_backend_url`: read `KIKA_AUTH_URL` with a cloud fallback. -/
def get_auth_backend_url (env : Env) : String :=
  env.kikaAuthUrl.getD ("https://kika-backend.onrender.com")

/-- Rust `check_core_health`: GET `<core url>/healthz`; `Ok(status.is_success())`
on a response, `Ok(false)` on any transport error.  `probe` maps the
requested URL to the outcome of the GET. -/
def check_core_health (env : Env) (probe : String → ProbeOutcome) :
    Except String Bool :=
  match probe (get_core_backend_url env ++ "/healthz") with
  | .response status => .ok (isSuccessStatus status)
  | .failure _ => .ok false

/-- Rust `check_auth_health`: same probe against `<auth url>/healthz`. -/
def check_auth_health (env : Env) (probe : String → ProbeOutcome) :
    Except String Bool :=
  match probe (get_auth_backend_url env ++ "/healthz") with
  | .response status => .ok (isSuccessStatus status)
  | .failure _ => .ok false

/-- Rust `check_backend_health` (legacy): the body is exactly
`check_auth_health().await`. -/
def check_backend_health (env : Env) (probe : String → ProbeOutcome) :
    Except String Bool :=
  check_auth_health env probe

/-- An HTTP request as the shell builds it: method, URL, and the request
timeout configured by the application, if any. -/
structure HttpRequest where
  method : String
  url : String
  timeoutMs : Option Nat

/-- Model of `reqwest::get(url)`: a GET through reqwest's default client, which
configures no request timeout (`timeoutMs = none`). -/
def reqwestGet (url : String) : HttpRequest :=
  { method := "GET", url := url, timeoutMs := none }

/-- The request `check_core_health` issues. -/
def core_health_request (env : Env) : HttpRequest :=
  reqwestGet (get_core_backend_url env ++ "/healthz")

/-- The request `check_auth_health` issues. -/
def auth_health_request (env : Env) : HttpRequest :=
  reqwestGet (get_auth_backend_url env ++ "/healthz")

/-- The managed state `BackendProcesses { core: Mutex<Option<CommandChild>> }`.
`poisoned` models the mutex being poisoned (its `lock()` returning `Err`);
`core` is the stored child handle, identified by its pid. -/
structure BackendProcesses where
  poisoned : Bool
  core : Option Nat
deriving DecidableEq

/-- Display string of `std::sync::PoisonError`, produced by the
`map_err(|e| e.to_string())` on a failed `lock()`. -/
def poisonMsg : String := "poisoned lock: another task failed inside"

/-- Outcome of `Command::new_sidecar("kika-backend-core")` followed by
`.spawn()`: the command constructor can fail (binary not bundled), the spawn
can fail at OS level, or a child process is created. -/
inductive LaunchOutcome where
  | commandUnavailable (msg : String)
  | spawnFailed (msg : String)
  | spawned
deriving DecidableEq

/-- Result of one `start_core_backend` invocation: the `Result<String,String>`
returned to the caller, the state left in the store, and the pids of the
processes this call spawned. -/
structure StartResult where
  ret : Except String String
  state : BackendProcesses
  spawned : List Nat

/-- Rust `start_core_backend`: lock (propagating a poison error), return
"already running" if a handle exists, otherwise build and spawn the sidecar;
store the child only on success. `freshPid` is the pid the OS would assign. -/
def start_core_backend (s : BackendProcesses) (launch : LaunchOutcome)
    (freshPid : Nat) : StartResult :=
  if s.poisoned then
    { ret := .error poisonMsg, state := s, spawned := [] }
  else if s.core.isSome then
    { ret := .ok ("Core backend already running"), state := s, spawned := [] }
  else
    match launch with
    | .commandUnavailable e =>
        { ret := .error ("Failed to create sidecar command: " ++ e),
          state := s, spawned := [] }
    | .spawnFailed e =>
        { ret := .error ("Failed to start core backend: " ++ e ++
            ". In development mode, start it manually."),
          state := s, spawned := [] }
    | .spawned =>
        { ret := .ok ("Core backend started"),
          state := { s with core := some freshPid }, spawned := [freshPid] }

/-- Result of one `stop_backends` invocation: the returned
`Result<String,String>`, the state left behind, and the pids that were
signalled via `kill` (the kill's own result is discarded by the code). -/
structure StopResult where
  ret : Except String String
  state : BackendProcesses
  killed : List Nat

/-- Rust `stop_backends`: lock (propagating a poison error), `take()` the handle,
and if one was present `let _ = child.kill()` — the kill outcome `killOk` is
discarded and never affects the returned value. -/
def stop_backends (s : BackendProcesses) (killOk : Bool) : StopResult :=
  if s.poisoned then
    { ret := .error poisonMsg, state := s, killed := [] }
  else
    match s.core with
    | some pid =>
        { ret := .ok ("Backends stopped"),
          state := { s with core := none }, killed := [pid] }
    | none =>
        { ret := .ok ("Backends stopped"), state := s, killed := [] }

/-- Result of the production auto-start path `start_sidecar_backends`:
its `Result<(), String>`, the state left behind, and spawned pids. -/
structure AutoStartResult where
  ret : Except String Unit
  state : BackendProcesses
  spawned : List Nat

/-- Rust `start_sidecar_backends` (production auto-start): builds and spawns the
sidecar WITHOUT checking whether a handle already exists; on spawn success it
overwrites `core` with the new child (the previous child, if any, is dropped
unsignalled).  If the lock is poisoned it logs and continues, so the child is
spawned but never stored.  The trailing health probe only logs and affects
neither the returned value nor the store. -/
def start_sidecar_backends (s : BackendProcesses) (launch : LaunchOutcome)
    (freshPid : Nat) : AutoStartResult :=
  match launch with
  | .commandUnavailable e =>
      { ret := .error e, state := s, spawned := [] }
  | .spawnFailed e =>
      { ret := .error ("Failed to start core backend: " ++ e),
        state := s, spawned := [] }
  | .spawned =>
      if s.poisoned then
        { ret := .ok (), state := s, spawned := [freshPid] }
      else
        { ret := .ok (), state := { s with core := some freshPid },
          spawned := [freshPid] }

/-- Result of the window-close handler: the state left behind and the pids
signalled.  The handler returns nothing and swallows every failure. -/
structure CloseResult where
  state : BackendProcesses
  killed : List Nat

/-- Rust `on_window_event` on `CloseRequested`: lock; on poison do nothing
(`Err(_) => {}`); otherwise `take()` the handle and `let _ = child.kill()`. -/
def on_window_event_close (s : BackendProcesses) : CloseResult :=
  if s.poisoned then
    { state := s, killed := [] }
  else
    match s.core with
    | some pid => { state := { s with core := none }, killed := [pid] }
    | none => { state := s, killed := [] }

/-- One supervisor operation occurring during the shell's lifetime, with the
external nondeterminism it consumes. -/
inductive Event where
  | startCore (launch : LaunchOutcome)
  | stopCmd (killOk : Bool)
  | autoStart (launch : LaunchOutcome)
deriving DecidableEq

/-- Accumulated execution of the shell: current store, next fresh pid, and
the pids spawned and signalled so far. -/
structure ShellExec where
  state : BackendProcesses
  nextPid : Nat
  spawned : List Nat
  killed : List Nat
deriving DecidableEq

/-- Apply one event to the execution. -/
def stepEvent (x : ShellExec) (e : Event) : ShellExec :=
  match e with
  | .startCore launch =>
      let r := start_core_backend x.state launch x.nextPid
      { state := r.state, nextPid := x.nextPid + r.spawned.length,
        spawned := x.spawned ++ r.spawned, killed := x.killed }
  | .stopCmd killOk =>
      let r := stop_backends x.state killOk
      { x with state := r.state, killed := x.killed ++ r.killed }
  | .autoStart launch =>
      let r := start_sidecar_backends x.state launch x.nextPid
      { state := r.state, nextPid := x.nextPid + r.spawned.length,
        spawned := x.spawned ++ r.spawned, killed := x.killed }

/-- The shell starts with an empty, unpoisoned store
(`core: Mutex::new(None)`). -/
def initExec : ShellExec :=
  { state := { poisoned := false, core := none }, nextPid := 0,
    spawned := [], killed := [] }

/-- Run a list of events from a given execution point. -/
def runFrom (x : ShellExec) (es : List Event) : ShellExec :=
  es.foldl stepEvent x

/-- A full shell execution ending in a clean shutdown: the events, then the
window-close handler. -/
def runShell (es : List Event) : ShellExec :=
  let x := runFrom initExec es
  let c := on_window_event_close x.state
  { x with state := c.state, killed := x.killed ++ c.killed }

/-- Holds (as a boolean) when, along the run from `x`, the auto-start path is never taken to
a successful spawn while a handle is already stored. -/
def noOverwrite (x : ShellExec) : List Event → Bool
  | [] => true
  | e :: es =>
      (match e with
       | .autoStart .spawned => x.state.core == none
       | _ => true) && noOverwrite (stepEvent x e) es

/-- Model of the boundary adapter invoking `check_core_health`: the Rust
command declares no `State<BackendProcesses>` parameter, so the managed store
is not passed to it. -/
def invoke_check_core_health (_procs : BackendProcesses) (env : Env)
    (probe : String → ProbeOutcome) : Except String Bool :=
  check_core_health env probe

/-- Model of the boundary adapter invoking `check_auth_health`: likewise the
command declares no `State<BackendProcesses>` parameter. -/
def invoke_check_auth_health (_procs : BackendProcesses) (env : Env)
    (probe : String → ProbeOutcome) : Except String Bool :=
  check_auth_health env probe

/-- Claim C4 (confirmed): both health checks never return an error; they
return `Ok true` exactly when the probe of `<endpoint>/healthz` yields a
response whose status code is in the success range, and `Ok false` on every
transport failure. -/
theorem check_health_ok_iff_success (env : Env)
    (probe : String → ProbeOutcome) :
    (∃ b, check_core_health env probe = .ok b) ∧
    (check_core_health env probe = .ok true ↔
      ∃ st, probe (get_core_backend_url env ++ "/healthz") = .response st ∧
        isSuccessStatus st = true) ∧
    (∀ m, probe (get_core_backend_url env ++ "/healthz") = .failure m →
      check_core_health env probe = .ok false) ∧
    (∃ b, check_auth_health env probe = .ok b) ∧
    (check_auth_health env probe = .ok true ↔
      ∃ st, probe (get_auth_backend_url env ++ "/healthz") = .response st ∧
        isSuccessStatus st = true) ∧
    (∀ m, probe (get_auth_backend_url env ++ "/healthz") = .failure m →
      check_auth_health env probe = .ok false) := by
  refine ⟨?_, ?_, ?_, ?_, ?_, ?_⟩
  · cases h : probe (get_core_backend_url env ++ "/healthz") with
    | response st => exact ⟨isSuccessStatus st, by simp [check_core_health, h]⟩
    | failure m => exact ⟨false, by simp [check_core_health, h]⟩
  · constructor
    · intro hok
      cases h : probe (get_core_backend_url env ++ "/healthz") with
      | response st =>
          refine ⟨st, rfl, ?_⟩
          simpa [check_core_health, h] using hok
      | failure m => simp [check_core_health, h] at hok
    · rintro ⟨st, hst, hsucc⟩
      simp [check_core_health, hst, hsucc]
  · intro m hm
    simp [check_core_health, hm]
  · cases h : probe (get_auth_backend_url env ++ "/healthz") with
    | response st => exact ⟨isSuccessStatus st, by simp [check_auth_health, h]⟩
    | failure m => exact ⟨false, by simp [check_auth_health, h]⟩
  · constructor
    · intro hok
      cases h : probe (get_auth_backend_url env ++ "/healthz") with
      | response st =>
          refine ⟨st, rfl, ?_⟩
          simpa [check_auth_health, h] using hok
      | failure m => simp [check_auth_health, h] at hok
    · rintro ⟨st, hst, hsucc⟩
      simp [check_auth_health, hst, hsucc]
  · intro m hm
    simp [check_auth_health, hm]

/-- Claim C8 (code_bug): the probe request is a GET to `<endpoint>/healthz`,
but it carries no application-configured timeout — `reqwest::get` uses the
default client, which sets none — so nothing bounds how long the probe may
block. -/
theorem health_request_untimed (env : Env) :
    (core_health_request env).method = "GET" ∧
    (core_health_request env).url = get_core_backend_url env ++ "/healthz" ∧
    (core_health_request env).timeoutMs = none ∧
    (auth_health_request env).timeoutMs = none :=
  ⟨rfl, rfl, rfl, rfl⟩

/-- Claim C9 (confirmed): the health checks are invariant under the contents
of the Process Handle Store — their result depends only on the environment
and the probe outcome. -/
theorem check_health_ignores_store (p1 p2 : BackendProcesses) (env : Env)
    (probe : String → ProbeOutcome) :
    invoke_check_core_health p1 env probe =
      invoke_check_core_health p2 env probe ∧
    invoke_check_auth_health p1 env probe =
      invoke_check_auth_health p2 env probe :=
  ⟨rfl, rfl⟩

/-- Claim C10 (confirmed): the legacy `check_backend_health` is extensionally
equal to `check_auth_health` — its body is exactly a call to it. -/
theorem check_backend_health_eq_check_auth_health (env : Env)
    (probe : String → ProbeOutcome) :
    check_backend_health env probe = check_auth_health env probe :=
  rfl

/-- Claim C2 counterexample: with a poisoned store guard, `stop_backends`
returns an error to its caller, not a success status string. -/
theorem stop_poisoned_returns_error :
    (stop_backends { poisoned := true, core := some 0 } true).ret =
      .error poisonMsg :=
  rfl

/-- Claim C2 (amended): whenever the store's guard is acquirable (not
poisoned), `stop_backends` returns the success status string regardless of
whether a handle was present and regardless of the outcome of the kill; only
a poisoned guard makes it return an error. -/
theorem stop_ok_when_lock_acquirable (s : BackendProcesses) (killOk : Bool)
    (h : s.poisoned = false) :
    (stop_backends s killOk).ret = .ok ("Backends stopped") := by
  cases hc : s.core <;> simp [stop_backends, h, hc]

/-- Witness for `stop_ok_when_lock_acquirable` at a concrete state with a
live handle and a failing kill. -/
theorem stop_ok_when_lock_acquirable_witness :
    ({ poisoned := false, core := some 5 } : BackendProcesses).poisoned
      = false ∧
    (stop_backends { poisoned := false, core := some 5 } false).ret =
      .ok ("Backends stopped") :=
  ⟨rfl, stop_ok_when_lock_acquirable { poisoned := false, core := some 5 }
    false rfl⟩

/-- Claim C6 counterexample: even with no handle stored, a poisoned guard
makes `stop_backends` return an error rather than the no-op success. -/
theorem stop_empty_poisoned_returns_error :
    ({ poisoned := true, core := none } : BackendProcesses).core = none ∧
    (stop_backends { poisoned := true, core := none } true).ret =
      .error poisonMsg :=
  ⟨rfl, rfl⟩

/-- Claim C6 (amended): when the guard is not poisoned and no handle exists,
`stop_backends` returns success, signals no process, and leaves the store
unchanged. -/
theorem stop_noop_success_when_empty (s : BackendProcesses) (killOk : Bool)
    (hp : s.poisoned = false) (hc : s.core = none) :
    stop_backends s killOk =
      { ret := .ok ("Backends stopped"), state := s, killed := [] } := by
  simp [stop_backends, hp, hc]

/-- Witness for `stop_noop_success_when_empty` at the initial empty store. -/
theorem stop_noop_success_when_empty_witness :
    ({ poisoned := false, core := none } : BackendProcesses).poisoned
      = false ∧
    ({ poisoned := false, core := none } : BackendProcesses).core = none ∧
    stop_backends { poisoned := false, core := none } true =
      { ret := .ok ("Backends stopped"),
        state := { poisoned := false, core := none }, killed := [] } :=
  ⟨rfl, rfl, stop_noop_success_when_empty { poisoned := false, core := none }
    true rfl rfl⟩

/-- Claim C3 (confirmed): starting with no stored handle, a failed launch
(command unavailable or spawn failure) returns an error message, mutates
nothing, and spawns no process; and a handle becomes stored only when the
launch outcome is a successful spawn. -/
theorem start_failure_no_mutation (s : BackendProcesses)
    (launch : LaunchOutcome) (freshPid : Nat)
    (hp : s.poisoned = false) (hc : s.core = none)
    (hfail : launch ≠ .spawned) :
    (∃ msg, (start_core_backend s launch freshPid).ret = .error msg) ∧
    (start_core_backend s launch freshPid).state = s ∧
    (start_core_backend s launch freshPid).spawned = [] ∧
    (∀ (l : LaunchOutcome) (p : Nat),
      (start_core_backend s l p).state.core.isSome = true → l = .spawned) := by
  refine ⟨?_, ?_, ?_, ?_⟩
  · cases launch with
    | commandUnavailable e =>
        exact ⟨"Failed to create sidecar command: " ++ e,
          by simp [start_core_backend, hp, hc]⟩
    | spawnFailed e =>
        exact ⟨"Failed to start core backend: " ++ e ++
            ". In development mode, start it manually.",
          by simp [start_core_backend, hp, hc]⟩
    | spawned => exact absurd rfl hfail
  · cases launch with
    | commandUnavailable e => simp [start_core_backend, hp, hc]
    | spawnFailed e => simp [start_core_backend, hp, hc]
    | spawned => exact absurd rfl hfail
  · cases launch with
    | commandUnavailable e => simp [start_core_backend, hp, hc]
    | spawnFailed e => simp [start_core_backend, hp, hc]
    | spawned => exact absurd rfl hfail
  · intro l p hstored
    cases l with
    | commandUnavailable e => simp [start_core_backend, hp, hc] at hstored
    | spawnFailed e => simp [start_core_backend, hp, hc] at hstored
    | spawned => rfl

/-- Witness for `start_failure_no_mutation`: empty store, sidecar binary not
bundled. -/
theorem start_failure_no_mutation_witness :
    ({ poisoned := false, core := none } : BackendProcesses).poisoned
      = false ∧
    ({ poisoned := false, core := none } : BackendProcesses).core = none ∧
    (LaunchOutcome.commandUnavailable ("no bundled binary") ≠
      LaunchOutcome.spawned) ∧
    ((∃ msg, (start_core_backend { poisoned := false, core := none }
        (.commandUnavailable ("no bundled binary")) 0).ret = .error msg) ∧
     (start_core_backend { poisoned := false, core := none }
        (.commandUnavailable ("no bundled binary")) 0).state =
       { poisoned := false, core := none } ∧
     (start_core_backend { poisoned := false, core := none }
        (.commandUnavailable ("no bundled binary")) 0).spawned = [] ∧
     (∀ (l : LaunchOutcome) (p : Nat),
       (start_core_backend { poisoned := false, core := none }
          l p).state.core.isSome = true → l = .spawned)) :=
  ⟨rfl, rfl, by decide,
    start_failure_no_mutation { poisoned := false, core := none }
      (.commandUnavailable ("no bundled binary")) 0 rfl rfl (by decide)⟩

/-- Claim C7 (confirmed): a successful start followed by stop leaves no
handle in the store, and a subsequent start spawns a new process and stores
its handle — the store allows re-acquisition after stop. -/
theorem start_stop_start_respawns (s : BackendProcesses) (p1 p2 : Nat)
    (killOk : Bool) (hp : s.poisoned = false) (hc : s.core = none) :
    (start_core_backend s .spawned p1).ret = .ok ("Core backend started") ∧
    (stop_backends (start_core_backend s .spawned p1).state killOk).state.core
      = none ∧
    (start_core_backend
      (stop_backends (start_core_backend s .spawned p1).state killOk).state
      .spawned p2).spawned = [p2] ∧
    (start_core_backend
      (stop_backends (start_core_backend s .spawned p1).state killOk).state
      .spawned p2).state.core = some p2 := by
  simp [start_core_backend, stop_backends, hp, hc]

/-- Witness for `start_stop_start_respawns` from the initial empty store. -/
theorem start_stop_start_respawns_witness :
    ({ poisoned := false, core := none } : BackendProcesses).poisoned
      = false ∧
    ({ poisoned := false, core := none } : BackendProcesses).core = none ∧
    ((start_core_backend { poisoned := false, core := none } .spawned 1).ret
       = .ok ("Core backend started") ∧
     (stop_backends (start_core_backend { poisoned := false, core := none }
        .spawned 1).state true).state.core = none ∧
     (start_core_backend
       (stop_backends (start_core_backend { poisoned := false, core := none }
          .spawned 1).state true).state .spawned 2).spawned = [2] ∧
     (start_core_backend
       (stop_backends (start_core_backend { poisoned := false, core := none }
          .spawned 1).state true).state .spawned 2).state.core = some 2) := by
  refine ⟨rfl, rfl, ?_⟩
  have h := start_stop_start_respawns { poisoned := false, core := none }
    1 2 true rfl rfl
  exact h

/-- Claim C1 counterexample: with a handle already stored, the production
auto-start path `start_sidecar_backends` does not return "already running":
it spawns a new process and replaces the stored handle. -/
theorem auto_start_not_idempotent :
    (start_sidecar_backends { poisoned := false, core := some 0 }
      .spawned 1).spawned = [1] ∧
    (start_sidecar_backends { poisoned := false, core := some 0 }
      .spawned 1).state.core = some 1 :=
  ⟨rfl, rfl⟩

/-- Claim C1 (amended): the UI start command `start_core_backend` is
idempotent — with a handle stored and the guard acquirable it returns
"already running", spawns nothing, and leaves the state unchanged — and two
sequential `start_core_backend` calls from an empty store spawn exactly one
process, the second returning "already running".  The production auto-start
path, by contrast, spawns without consulting the store. -/
theorem start_core_backend_idempotent (s : BackendProcesses)
    (launch : LaunchOutcome) (freshPid : Nat)
    (hp : s.poisoned = false) (hs : s.core.isSome = true) :
    (start_core_backend s launch freshPid =
      { ret := .ok ("Core backend already running"), state := s,
        spawned := [] }) ∧
    (∀ (s0 : BackendProcesses) (l2 : LaunchOutcome) (p1 p2 : Nat),
      s0.poisoned = false → s0.core = none →
      ((start_core_backend s0 .spawned p1).spawned ++
        (start_core_backend (start_core_backend s0 .spawned p1).state
          l2 p2).spawned = [p1]) ∧
      (start_core_backend (start_core_backend s0 .spawned p1).state
        l2 p2).ret = .ok ("Core backend already running")) := by
  constructor
  · simp [start_core_backend, hp, hs]
  · intro s0 l2 p1 p2 hp0 hc0
    simp [start_core_backend, hp0, hc0]

/-- Witness for `start_core_backend_idempotent` at a store already holding a
handle. -/
theorem start_core_backend_idempotent_witness :
    ({ poisoned := false, core := some 7 } : BackendProcesses).poisoned
      = false ∧
    ({ poisoned := false, core := some 7 } : BackendProcesses).core.isSome
      = true ∧
    ((start_core_backend { poisoned := false, core := some 7 } .spawned 9 =
       { ret := .ok ("Core backend already running"),
         state := { poisoned := false, core := some 7 }, spawned := [] }) ∧
     (∀ (s0 : BackendProcesses) (l2 : LaunchOutcome) (p1 p2 : Nat),
       s0.poisoned = false → s0.core = none →
       ((start_core_backend s0 .spawned p1).spawned ++
         (start_core_backend (start_core_backend s0 .spawned p1).state
           l2 p2).spawned = [p1]) ∧
       (start_core_backend (start_core_backend s0 .spawned p1).state
         l2 p2).ret = .ok ("Core backend already running"))) :=
  ⟨rfl, rfl, start_core_backend_idempotent
    { poisoned := false, core := some 7 } .spawned 9 rfl rfl⟩

/-- Claim C5 counterexample: a child spawned by the UI start command and then
overwritten by the production auto-start path is never signalled — in this
clean-shutdown execution pid 0 is spawned but absent from the killed list. -/
theorem clean_shutdown_leaks_overwritten_child :
    0 ∈ (runShell [.startCore .spawned, .autoStart .spawned]).spawned ∧
    0 ∉ (runShell [.startCore .spawned, .autoStart .spawned]).killed := by
  decide

/-- Inductive step for the shutdown invariant: one event keeps the guard
unpoisoned and keeps every spawned pid either already killed or stored as the
current handle, provided the auto-start path does not spawn over an existing
handle. -/
theorem stepEvent_inv (x : ShellExec) (e : Event)
    (hp : x.state.poisoned = false)
    (hguard : (match e with
       | .autoStart .spawned => x.state.core == none
       | _ => true) = true)
    (hinv : ∀ p ∈ x.spawned, p ∈ x.killed ∨ x.state.core = some p) :
    (stepEvent x e).state.poisoned = false ∧
    ∀ p ∈ (stepEvent x e).spawned,
      p ∈ (stepEvent x e).killed ∨ (stepEvent x e).state.core = some p := by
  cases e with
  | startCore launch =>
      cases hc : x.state.core with
      | some q =>
          have hres : start_core_backend x.state launch x.nextPid =
              { ret := .ok ("Core backend already running"),
                state := x.state, spawned := [] } := by
            simp [start_core_backend, hp, hc]
          constructor
          · simp [stepEvent, hres, hp]
          · intro p hmem
            have hmem2 : p ∈ x.spawned := by
              simpa [stepEvent, hres] using hmem
            simpa [stepEvent, hres] using hinv p hmem2
      | none =>
          cases launch with
          | commandUnavailable e0 =>
              have hres : start_core_backend x.state
                  (.commandUnavailable e0) x.nextPid =
                  { ret := .error ("Failed to create sidecar command: " ++ e0),
                    state := x.state, spawned := [] } := by
                simp [start_core_backend, hp, hc]
              constructor
              · simp [stepEvent, hres, hp]
              · intro p hmem
                have hmem2 : p ∈ x.spawned := by
                  simpa [stepEvent, hres] using hmem
                simpa [stepEvent, hres] using hinv p hmem2
          | spawnFailed e0 =>
              have hres : start_core_backend x.state
                  (.spawnFailed e0) x.nextPid =
                  { ret := .error ("Failed to start core backend: " ++ e0 ++
                      ". In development mode, start it manually."),
                    state := x.state, spawned := [] } := by
                simp [start_core_backend, hp, hc]
              constructor
              · simp [stepEvent, hres, hp]
              · intro p hmem
                have hmem2 : p ∈ x.spawned := by
                  simpa [stepEvent, hres] using hmem
                simpa [stepEvent, hres] using hinv p hmem2
          | spawned =>
              have hres : start_core_backend x.state .spawned x.nextPid =
                  { ret := .ok ("Core backend started"),
                    state := { x.state with core := some x.nextPid },
                    spawned := [x.nextPid] } := by
                simp [start_core_backend, hp, hc]
              constructor
              · simp [stepEvent, hres, hp]
              · intro p hmem
                have hmem2 : p ∈ x.spawned ∨ p = x.nextPid := by
                  simpa [stepEvent, hres] using hmem
                rcases hmem2 with h | h
                · rcases hinv p h with h2 | h2
                  · exact Or.inl (by simpa [stepEvent, hres] using h2)
                  · rw [hc] at h2; cases h2
                · subst h
                  exact Or.inr (by simp [stepEvent, hres])
  | stopCmd killOk =>
      cases hc : x.state.core with
      | some q =>
          have hres : stop_backends x.state killOk =
              { ret := .ok ("Backends stopped"),
                state := { x.state with core := none }, killed := [q] } := by
            simp [stop_backends, hp, hc]
          constructor
          · simp [stepEvent, hres, hp]
          · intro p hmem
            have hmem2 : p ∈ x.spawned := by
              simpa [stepEvent, hres] using hmem
            rcases hinv p hmem2 with h2 | h2
            · refine Or.inl ?_
              have : p ∈ x.killed ++ [q] := List.mem_append.2 (Or.inl h2)
              simpa [stepEvent, hres] using this
            · rw [hc] at h2
              have hq : q = p := by injection h2
              subst hq
              refine Or.inl ?_
              simp [stepEvent, hres]
      | none =>
          have hres : stop_backends x.state killOk =
              { ret := .ok ("Backends stopped"),
                state := x.state, killed := [] } := by
            simp [stop_backends, hp, hc]
          constructor
          · simp [stepEvent, hres, hp]
          · intro p hmem
            have hmem2 : p ∈ x.spawned := by
              simpa [stepEvent, hres] using hmem
            simpa [stepEvent, hres] using hinv p hmem2
  | autoStart launch =>
      cases launch with
      | commandUnavailable e0 =>
          have hres : start_sidecar_backends x.state
              (.commandUnavailable e0) x.nextPid =
              { ret := .error e0, state := x.state, spawned := [] } := by
            simp [start_sidecar_backends]
          constructor
          · simp [stepEvent, hres, hp]
          · intro p hmem
            have hmem2 : p ∈ x.spawned := by
              simpa [stepEvent, hres] using hmem
            simpa [stepEvent, hres] using hinv p hmem2
      | spawnFailed e0 =>
          have hres : start_sidecar_backends x.state
              (.spawnFailed e0) x.nextPid =
              { ret := .error ("Failed to start core backend: " ++ e0),
                state := x.state, spawned := [] } := by
            simp [start_sidecar_backends]
          constructor
          · simp [stepEvent, hres, hp]
          · intro p hmem
            have hmem2 : p ∈ x.spawned := by
              simpa [stepEvent, hres] using hmem
            simpa [stepEvent, hres] using hinv p hmem2
      | spawned =>
          have hc : x.state.core = none := by simpa using hguard
          have hres : start_sidecar_backends x.state .spawned x.nextPid =
              { ret := .ok (),
                state := { x.state with core := some x.nextPid },
                spawned := [x.nextPid] } := by
            simp [start_sidecar_backends, hp]
          constructor
          · simp [stepEvent, hres, hp]
          · intro p hmem
            have hmem2 : p ∈ x.spawned ∨ p = x.nextPid := by
              simpa [stepEvent, hres] using hmem
            rcases hmem2 with h | h
            · rcases hinv p h with h2 | h2
              · exact Or.inl (by simpa [stepEvent, hres] using h2)
              · rw [hc] at h2; cases h2
            · subst h
              exact Or.inr (by simp [stepEvent, hres])

/-- Invariant along a whole run: from an unpoisoned point whose spawned pids
are all killed or currently stored, an overwrite-free event list preserves
that property. -/
theorem runFrom_inv (es : List Event) :
    ∀ (x : ShellExec), x.state.poisoned = false →
      noOverwrite x es = true →
      (∀ p ∈ x.spawned, p ∈ x.killed ∨ x.state.core = some p) →
      (runFrom x es).state.poisoned = false ∧
      ∀ p ∈ (runFrom x es).spawned,
        p ∈ (runFrom x es).killed ∨ (runFrom x es).state.core = some p := by
  induction es with
  | nil =>
      intro x hp _ hinv
      exact ⟨hp, hinv⟩
  | cons e es ih =>
      intro x hp hno hinv
      have hsplit := hno
      simp only [noOverwrite, Bool.and_eq_true] at hsplit
      obtain ⟨hguard, hrest⟩ := hsplit
      obtain ⟨hp2, hinv2⟩ := stepEvent_inv x e hp hguard hinv
      simpa [runFrom, List.foldl_cons] using ih (stepEvent x e) hp2 hrest hinv2

/-- Claim C5 (amended): in every clean-shutdown execution in which the
auto-start path never spawns while a handle is already stored, every child
spawned during the shell's lifetime is signalled before process exit. -/
theorem clean_shutdown_kills_all (es : List Event)
    (hno : noOverwrite initExec es = true) :
    ∀ p ∈ (runShell es).spawned, p ∈ (runShell es).killed := by
  obtain ⟨hpois, hinv⟩ := runFrom_inv es initExec rfl hno
    (by intro p hmem; cases hmem)
  intro p hmem
  simp only [runShell] at hmem ⊢
  rcases hinv p hmem with h1 | h1
  · exact List.mem_append.2 (Or.inl h1)
  · refine List.mem_append.2 (Or.inr ?_)
    simp [on_window_event_close, hpois, h1]

/-- Witness for `clean_shutdown_kills_all` on a concrete overwrite-free
execution: UI start, UI stop (with a failing kill), then the auto-start. -/
theorem clean_shutdown_kills_all_witness :
    noOverwrite initExec
      [.startCore .spawned, .stopCmd false, .autoStart .spawned] = true ∧
    ∀ p ∈ (runShell
        [.startCore .spawned, .stopCmd false, .autoStart .spawned]).spawned,
      p ∈ (runShell
        [.startCore .spawned, .stopCmd false, .autoStart .spawned]).killed :=
  ⟨by decide, clean_shutdown_kills_all
    [.startCore .spawned, .stopCmd false, .autoStart .spawned] (by decide)⟩

end Kika
